import Mathlib

/-!
Shallow embedding of the RideShare AI demo application (src/index.tsx) and
verification of its specified state-machine properties.

The source is a single React component.  Its mutable `useState` fields are
collected into the `AppState` record; each event handler becomes a pure
function `AppState → AppState` (parameterised over the outcome of the one
awaited external AI request where the handler performs one).  The two
`setInterval` timers are modelled by boolean ownership flags that are kept in
sync with the owning status after every event, mirroring the two `useEffect`
blocks (src/index.tsx lines 167-237 and 240-262).  External collaborators
(the generative-AI client and `JSON.parse`) are modelled by inductive outcome
types: each constructor corresponds to one control path the source
distinguishes (request threw, empty text, unparseable JSON, parsed record).
Numeric JSON payload values are modelled as naturals: the source only copies
and displays them, never computes with them.
-/

/-- UserMode, src/index.tsx line 29. -/
inductive UserMode
  | none
  | passenger
  | driver
deriving DecidableEq, Repr

/-- DriverStatus, src/index.tsx line 30. -/
inductive DriverStatus
  | offline
  | online
  | request_pending
  | on_ride
  | ride_completed
deriving DecidableEq, Repr

/-- RideStatus, src/index.tsx line 31.  The React state variable
`passengerRideStatus` has type `RideStatus | null`, modelled as
`Option RideStatus`. -/
inductive RideStatus
  | searching
  | found
  | tracking
  | completed
  | canceled
deriving DecidableEq, Repr

/-- VehicleType, src/index.tsx line 32. -/
inductive VehicleType
  | Car
  | Bike
deriving DecidableEq, Repr

/-- PaymentMethod, src/index.tsx line 33. -/
inductive PaymentMethod
  | Cash
  | Wallet
deriving DecidableEq, Repr

/-- The sender tag of a chat message, src/index.tsx line 36. -/
inductive Sender
  | user
  | ai
deriving DecidableEq, Repr

/-- A chat message's text is `string | JSX.Element` in the source (line 37);
the only non-string value ever stored is the `LoadingSpinner` placeholder
element, modelled by the `pending` constructor. -/
inductive ChatText
  | str (s : String)
  | pending
deriving DecidableEq, Repr

/-- ChatMessage, src/index.tsx lines 35-38. -/
structure ChatMessage where
  sender : Sender
  text : ChatText
deriving DecidableEq, Repr

/-- RideOffer, src/index.tsx lines 40-51.  `vehicleType` is kept as the raw
string delivered by the AI JSON payload (the source never converts it). -/
structure RideOffer where
  driverName : String
  driverRating : Nat
  vehicleType : String
  licensePlate : String
  etaMinutes : Nat
  estimatedFare : Nat
  pickup : String
  destination : String
  passengerName : Option String
  passengerRating : Option Nat
deriving DecidableEq, Repr

/-- The parsed JSON payload of a successful passenger find-ride response
(prompt at src/index.tsx lines 283-285).  The optional `message` field models
the structured no-drivers reply. -/
structure RideData where
  driverName : String
  driverRating : Nat
  vehicleType : String
  licensePlate : String
  etaMinutes : Nat
  estimatedFare : Nat
  message : Option String
deriving DecidableEq, Repr

/-- The parsed JSON payload of a driver incoming-request response (prompt at
src/index.tsx line 181). -/
structure RequestData where
  passengerName : String
  passengerRating : Nat
  pickup : String
  destination : String
  fare : Nat
deriving DecidableEq, Repr

/-- Outcome of the awaited AI round trip plus `JSON.parse` inside
`handleFindRide` (src/index.tsx lines 287-331): the request threw
(`apiError`), `response.text` was absent or trimmed to empty (`noText`),
`JSON.parse` threw (`badJson`), or a record was parsed (`parsed`). -/
inductive FindRideOutcome
  | apiError (m : String)
  | noText
  | badJson
  | parsed (d : RideData)
deriving DecidableEq, Repr

/-- Outcome of the awaited AI round trip plus `JSON.parse` inside
`simulateDriverActivity` (src/index.tsx lines 183-218). -/
inductive PollOutcome
  | apiError (m : String)
  | noText
  | badJson
  | parsed (d : RequestData)
deriving DecidableEq, Repr

/-- Outcome of dispatching a chat message (src/index.tsx lines 433-469):
`sendMessageStream` itself threw (`dispatchError`), the stream delivered the
listed text fragments and completed (`ok`), or it delivered the listed
fragments and then threw (`failDuring`). -/
inductive ChatSend
  | dispatchError
  | ok (fragments : List String)
  | failDuring (fragments : List String)
deriving DecidableEq, Repr

/-- The component's `useState`/`useRef` fields gathered into one record
(src/index.tsx lines 77-100).  `chatSession` models `chatRef.current`
(an opaque handle), the two `...TimerActive` booleans model the interval
handles held by `driverRequestIntervalRef` / `rideTrackingIntervalRef`,
`trackingEta` models the `eta` variable captured by the tracking interval
closure (line 242), `hasApiKey` models the presence of `process.env.API_KEY`,
and `fetchCount` instruments the number of driver incoming-request AI
fetches actually issued (the request at line 183 guarded by line 169). -/
structure AppState where
  userMode : UserMode
  currentLocation : String
  pickupLocation : String
  destination : String
  vehicleType : VehicleType
  paymentMethod : PaymentMethod
  driverStatus : DriverStatus
  currentRideOffer : Option RideOffer
  passengerRideStatus : Option RideStatus
  apiResponse : String
  loading : Bool
  error : String
  isOnline : Bool
  isChatOpen : Bool
  chatMessages : List ChatMessage
  chatInput : String
  chatSession : Option Nat
  driverTimerActive : Bool
  trackingTimerActive : Bool
  trackingEta : Int
  hasApiKey : Bool
  fetchCount : Nat
deriving DecidableEq, Repr

/-- Initial component state (src/index.tsx lines 77-100): mode `none`, empty
location fields, `Car`/`Cash` defaults, driver `offline`, no offer, no
passenger ride status, no timers, no chat session.  `navigator.onLine` is the
`online` parameter.  `hasApiKey` is `true`: when the key is absent the app
renders only a static error page (line 500) and none of the handlers can run. -/
def initState (online : Bool) : AppState :=
  { userMode := UserMode.none
    currentLocation := ""
    pickupLocation := ""
    destination := ""
    vehicleType := VehicleType.Car
    paymentMethod := PaymentMethod.Cash
    driverStatus := DriverStatus.offline
    currentRideOffer := none
    passengerRideStatus := none
    apiResponse := ""
    loading := false
    error := ""
    isOnline := online
    isChatOpen := false
    chatMessages := []
    chatInput := ""
    chatSession := none
    driverTimerActive := false
    trackingTimerActive := false
    trackingEta := 0
    hasApiKey := true
    fetchCount := 0 }

/-! User-facing strings from the source, reproduced so that the theorems can
talk about messages being set.  Only their (non-)emptiness matters below. -/

/-- Error shown when pickup or destination is missing, src/index.tsx line 267. -/
def msgEnterBoth : String := "অনুগ্রহ করে পিকআপ এবং গন্তব্য উভয় স্থানই প্রবেশ করুন।"

/-- Error shown when finding a ride while offline, src/index.tsx line 271. -/
def msgFindOffline : String := "আপনি অফলাইন। রাইড খুঁজে পাওয়া সম্ভব নয়।"

/-- Message shown when the find-ride JSON cannot be parsed, src/index.tsx line 321. -/
def msgFindParseFail : String :=
  "একটি প্রতিক্রিয়া পাওয়া গেছে, কিন্তু রাইডের বিস্তারিত তথ্য পার্স করা যায়নি। অনুগ্রহ করে আবার চেষ্টা করুন।"

/-- Message shown when the find-ride response has no text, src/index.tsx line 325. -/
def msgFindNoText : String := "রাইড খুঁজে পেতে AI থেকে কোনো প্রতিক্রিয়া নেই। অনুগ্রহ করে আবার চেষ্টা করুন।"

/-- Error prefix when the find-ride request throws, src/index.tsx line 330. -/
def msgFindFail (m : String) : String :=
  "রাইড খুঁজে পেতে ব্যর্থ: " ++ (if m = "" then "অজানা ত্রুটি" else m)

/-- Status text on a successful find-ride, src/index.tsx line 316. -/
def msgOfferFound (d : RideData) : String :=
  "রাইড অফার পাওয়া গেছে! ড্রাইভার " ++ d.driverName ++ " " ++ toString d.etaMinutes ++ " মিনিট দূরে আছে।"

/-- The offer committed on a successful passenger find-ride, src/index.tsx
line 315: the parsed record spread together with the submitted pickup and
destination.  The passenger-side JSON carries no passenger fields. -/
def offerOfRide (d : RideData) (pickup dest : String) : RideOffer :=
  { driverName := d.driverName
    driverRating := d.driverRating
    vehicleType := d.vehicleType
    licensePlate := d.licensePlate
    etaMinutes := d.etaMinutes
    estimatedFare := d.estimatedFare
    pickup := pickup
    destination := dest
    passengerName := none
    passengerRating := none }

/-- JavaScript truthiness of the optional `message` field: `rideData.message`
is truthy exactly when it is present and non-empty (src/index.tsx line 311). -/
def messageTruthy (d : RideData) : Bool :=
  match d.message with
  | none => false
  | some m => m ≠ ""

/-- The state after `handleFindRide` passes its guards and dispatches the
request (src/index.tsx lines 275-279): loading set, status text and error
cleared, any prior offer cleared, passenger status set to `searching`. -/
def findRideSearching (s : AppState) : AppState :=
  { s with loading := true
           apiResponse := ""
           error := ""
           currentRideOffer := none
           passengerRideStatus := some RideStatus.searching }

/-- Resolution of the find-ride request (src/index.tsx lines 306-334),
applied to the `searching` intermediate state.  `loading := false` is the
`finally` block. -/
def finishFindRide (s : AppState) (r : FindRideOutcome) : AppState :=
  match r with
  | FindRideOutcome.apiError m =>
      { s with error := msgFindFail m, passengerRideStatus := none, loading := false }
  | FindRideOutcome.noText =>
      { s with apiResponse := msgFindNoText, passengerRideStatus := none, loading := false }
  | FindRideOutcome.badJson =>
      { s with apiResponse := msgFindParseFail, passengerRideStatus := none, loading := false }
  | FindRideOutcome.parsed d =>
      if messageTruthy d then
        { s with apiResponse := d.message.getD "", passengerRideStatus := none, loading := false }
      else
        { s with currentRideOffer := some (offerOfRide d s.pickupLocation s.destination)
                 apiResponse := msgOfferFound d
                 passengerRideStatus := some RideStatus.found
                 loading := false }

/-- handleFindRide, src/index.tsx lines 265-335.  The request outcome `r`
stands for the awaited AI round trip together with `JSON.parse`. -/
def handleFindRide (s : AppState) (r : FindRideOutcome) : AppState :=
  if s.pickupLocation = "" ∨ s.destination = "" then
    { s with error := msgEnterBoth }
  else if s.isOnline = false then
    { s with error := msgFindOffline }
  else
    finishFindRide (findRideSearching s) r

/-- handlePassengerAcceptRide, src/index.tsx lines 337-342. -/
def handlePassengerAcceptRide (s : AppState) : AppState :=
  match s.currentRideOffer with
  | some o =>
      { s with passengerRideStatus := some RideStatus.tracking
               apiResponse := "আপনি রাইডটি গ্রহণ করেছেন! ড্রাইভার " ++ o.driverName ++ " আসছে।" }
  | none => s

/-- handlePassengerCancelRide, src/index.tsx lines 344-348. -/
def handlePassengerCancelRide (s : AppState) : AppState :=
  { s with passengerRideStatus := some RideStatus.canceled
           currentRideOffer := none
           apiResponse := "রাইড বাতিল করা হয়েছে।" }

/-- handlePassengerCompleteRide, src/index.tsx lines 350-354. -/
def handlePassengerCompleteRide (s : AppState) : AppState :=
  { s with passengerRideStatus := some RideStatus.completed
           apiResponse := "রাইড সম্পন্ন হয়েছে! আপনার ড্রাইভারকে রেটিং দিন।"
           currentRideOffer := none }

/-- handleDriverToggleOnline, src/index.tsx lines 357-368. -/
def handleDriverToggleOnline (s : AppState) : AppState :=
  if s.isOnline = false then
    { s with error := "আপনি অফলাইন। অনলাইন স্ট্যাটাস পরিবর্তন করা সম্ভব নয়।" }
  else
    let newStatus := if s.driverStatus = DriverStatus.offline
                     then DriverStatus.online else DriverStatus.offline
    { s with driverStatus := newStatus
             apiResponse := if newStatus = DriverStatus.online
                            then "আপনি অনলাইন আছেন। রাইড রিকোয়েস্টের জন্য অপেক্ষা করছেন..."
                            else "আপনি অফলাইন।"
             error := ""
             loading := false
             currentRideOffer := none }

/-- handleDriverAcceptRide, src/index.tsx lines 370-377.  Note that the
source does not clear `currentRideOffer` here: the on-ride card (lines
714-725) still displays it, and it is cleared by `handleDriverCompleteRide`. -/
def handleDriverAcceptRide (s : AppState) : AppState :=
  match s.currentRideOffer with
  | some o =>
      { s with driverStatus := DriverStatus.on_ride
               apiResponse := "রাইড গ্রহণ করা হয়েছে! যাত্রী " ++ o.pickup ++ " থেকে " ++ o.destination ++ " পর্যন্ত যাবে।"
               pickupLocation := o.pickup
               destination := o.destination }
  | none => s

/-- handleDriverDeclineRide, src/index.tsx lines 379-383. -/
def handleDriverDeclineRide (s : AppState) : AppState :=
  { s with driverStatus := DriverStatus.online
           apiResponse := "রাইড প্রত্যাখ্যান করা হয়েছে। পরবর্তী রিকোয়েস্টের জন্য অপেক্ষা করা হচ্ছে..."
           currentRideOffer := none }

/-- handleDriverCompleteRide, src/index.tsx lines 385-389. -/
def handleDriverCompleteRide (s : AppState) : AppState :=
  { s with driverStatus := DriverStatus.ride_completed
           apiResponse := "রাইড সম্পন্ন হয়েছে! আপনি ৳" ++
             (match s.currentRideOffer with
              | some o => toString o.estimatedFare
              | none => "") ++ " উপার্জন করেছেন। যাত্রীকে রেটিং দিন।"
           currentRideOffer := none }

/-- The offer committed when a driver incoming-request payload parses
(src/index.tsx line 206): the parsed record spread into a `RideOffer` with
`estimatedFare` mapped from `fare`.  The driver-side fields not present in
the payload are `undefined` at runtime in the source; they are modelled by
the neutral defaults and are never read while this offer is live. -/
def offerOfRequest (d : RequestData) : RideOffer :=
  { driverName := ""
    driverRating := 0
    vehicleType := ""
    licensePlate := ""
    etaMinutes := 0
    estimatedFare := d.fare
    pickup := d.pickup
    destination := d.destination
    passengerName := some d.passengerName
    passengerRating := some d.passengerRating }

/-- simulateDriverActivity, src/index.tsx lines 168-223: the body of the
driver polling interval.  It issues an AI fetch (counted by `fetchCount`)
only under the guard of line 169; on a parsed payload it commits the offer
and moves to `request_pending`.  `setLoading(true)` followed by the
`finally` `setLoading(false)` leaves `loading` unchanged at `false` once the
awaited outcome is applied. -/
def simulateDriverActivity (s : AppState) (r : PollOutcome) : AppState :=
  if s.driverStatus = DriverStatus.online ∧ s.isOnline = true ∧
     s.loading = false ∧ s.currentRideOffer = none then
    let s1 := { s with error := "", fetchCount := s.fetchCount + 1 }
    match r with
    | PollOutcome.apiError m =>
        { s1 with error := "রাইড রিকোয়েস্ট আনতে ব্যর্থ: " ++ (if m = "" then "অজানা ত্রুটি" else m)
                  loading := false }
    | PollOutcome.noText =>
        { s1 with apiResponse := "কোনো রাইড রিকোয়েস্ট পাওয়া যায়নি।", loading := false }
    | PollOutcome.badJson =>
        { s1 with apiResponse := "রাইড রিকোয়েস্ট পাওয়া গেছে, কিন্তু বিস্তারিত তথ্য পার্স করা যায়নি। অনুগ্রহ করে আবার চেষ্টা করুন।"
                  loading := false }
    | PollOutcome.parsed d =>
        { s1 with currentRideOffer := some (offerOfRequest d)
                  driverStatus := DriverStatus.request_pending
                  apiResponse := "নতুন রাইড রিকোয়েস্ট! " ++ d.passengerName ++ " " ++ d.pickup ++ " থেকে " ++ d.destination ++ " পর্যন্ত।"
                  loading := false }
  else s

/-- Greeting seeded when the chat session is created, src/index.tsx line 408. -/
def msgGreeting : String := "নমস্কার! আজ আপনার রাইড সম্পর্কে কীভাবে সাহায্য করতে পারি?"

/-- initializeChat, src/index.tsx lines 391-410.  Creating the session
replaces the entire turn list with the single greeting turn, exactly as
`setChatMessages([...])` does at line 408. -/
def initChat (s : AppState) : AppState :=
  if s.hasApiKey = false then
    { s with error := "এপিআই কী কনফিগার করা নেই। চ্যাট শুরু করা সম্ভব নয়।" }
  else if s.isOnline = false then
    { s with error := "আপনি অফলাইন। চ্যাট সহকারী উপলব্ধ নয়।" }
  else if s.chatSession = none then
    { s with chatSession := some 1
             chatMessages := [⟨Sender.ai, ChatText.str msgGreeting⟩] }
  else s

/-- Replacement of the last element of the turn list, the shallow embedding
of `newMessages[newMessages.length - 1] = m` (src/index.tsx line 446). -/
def setLast (msgs : List ChatMessage) (m : ChatMessage) : List ChatMessage :=
  msgs.dropLast ++ [m]

/-- One `setChatMessages` update inside the streaming loop (src/index.tsx
lines 442-453), applied with the accumulator value `acc`: replace the last
turn when it is the non-string placeholder, or any trailing assistant turn;
otherwise push a fresh assistant turn. -/
def applyChunkUpdate (msgs : List ChatMessage) (acc : String) : List ChatMessage :=
  match msgs.getLast? with
  | none => msgs ++ [⟨Sender.ai, ChatText.str acc⟩]
  | some last =>
      match last.text with
      | ChatText.pending => setLast msgs ⟨Sender.ai, ChatText.str acc⟩
      | ChatText.str _ =>
          if last.sender = Sender.ai then setLast msgs ⟨Sender.ai, ChatText.str acc⟩
          else msgs ++ [⟨Sender.ai, ChatText.str acc⟩]

/-- The `for await` loop over stream chunks (src/index.tsx lines 438-455):
each truthy (non-empty) fragment is appended to the accumulator and the turn
list is updated; falsy fragments are skipped by the `if (c.text)` test. -/
def streamMerge (fs : List String) (msgs : List ChatMessage) (acc : String) : List ChatMessage :=
  match fs with
  | [] => msgs
  | f :: rest =>
      if f = "" then streamMerge rest msgs acc
      else streamMerge rest (applyChunkUpdate msgs (acc ++ f)) (acc ++ f)

/-- JavaScript `String.prototype.trim` (used at src/index.tsx line 414):
leading and trailing whitespace removed. -/
def jsTrim (s : String) : String :=
  String.mk (((s.data.dropWhile Char.isWhitespace).reverse.dropWhile Char.isWhitespace).reverse)

/-- Chat failure turn text, src/index.tsx lines 463 and 465. -/
def msgChatErr : String := "দুঃখিত, একটি ত্রুটি হয়েছে। অনুগ্রহ করে আবার চেষ্টা করুন।"

/-- The catch block of the chat stream (src/index.tsx lines 456-469): set the
error string, then resolve a dangling placeholder in place or append a fresh
failure turn. -/
def chatCatch (s : AppState) : AppState :=
  { s with error := "চ্যাট সহকারী থেকে প্রতিক্রিয়া পেতে ব্যর্থ।"
           chatMessages :=
             match s.chatMessages.getLast? with
             | some last =>
                 if last.sender = Sender.ai ∧
                    (last.text = ChatText.pending ∨ last.text = ChatText.str "...") then
                   setLast s.chatMessages ⟨Sender.ai, ChatText.str msgChatErr⟩
                 else s.chatMessages ++ [⟨Sender.ai, ChatText.str msgChatErr⟩]
             | none => s.chatMessages ++ [⟨Sender.ai, ChatText.str msgChatErr⟩] }

/-- The immediate appending of the user's turn together with clearing the
input box and the error string (src/index.tsx lines 420-423); the appended
text is the input as it stood at dispatch. -/
def chatAppendUser (s : AppState) : AppState :=
  { s with chatMessages := s.chatMessages ++ [⟨Sender.user, ChatText.str s.chatInput⟩]
           chatInput := ""
           error := "" }

/-- The lazy session creation of src/index.tsx lines 425-426: initialise only
when no handle exists. -/
def chatEnsureSession (s : AppState) : AppState :=
  if s.chatSession = none then initChat s else s

/-- Dispatch after the user turn is appended (src/index.tsx lines 427-469):
if the session still does not exist, append the terminal apology turn and
stop; otherwise append the pending placeholder and consume the stream,
falling into the catch block on failure. -/
def chatDispatch (s : AppState) (r : ChatSend) : AppState :=
  if s.chatSession = none then
    { s with chatMessages := s.chatMessages ++
        [⟨Sender.ai, ChatText.str "দুঃখিত, আমি চ্যাট সহকারী শুরু করতে পারিনি। অনুগ্রহ করে আপনার সংযোগ পরীক্ষা করুন।"⟩] }
  else
    match r with
    | ChatSend.dispatchError => chatCatch s
    | ChatSend.ok fs =>
        { s with chatMessages := streamMerge fs (s.chatMessages ++ [⟨Sender.ai, ChatText.pending⟩]) "" }
    | ChatSend.failDuring fs =>
        chatCatch { s with chatMessages := streamMerge fs (s.chatMessages ++ [⟨Sender.ai, ChatText.pending⟩]) "" }

/-- handleSendChatMessage, src/index.tsx lines 412-470.  The stream outcome
`r` stands for the awaited `sendMessageStream` call and its chunk sequence.
The placeholder spinner turn is appended at line 436 before any chunk is
consumed. -/
def handleSendChatMessage (s : AppState) (r : ChatSend) : AppState :=
  if jsTrim s.chatInput = "" then s
  else if s.isOnline = false then
    { s with error := "আপনি অফলাইন। চ্যাট বার্তা পাঠানো সম্ভব নয়।" }
  else chatDispatch (chatEnsureSession (chatAppendUser s)) r

/-- handleToggleChat, src/index.tsx lines 472-477: flip the window and, when
it was closed and no session exists, initialise one. -/
def handleToggleChat (s : AppState) : AppState :=
  let s1 := { s with isChatOpen := !s.isChatOpen }
  if s.isChatOpen = false ∧ s.chatSession = none then initChat s1 else s1

/-- resetAppState, src/index.tsx lines 479-497: back to role selection,
pickup restored to the current-location string, destination and messages
cleared, both statuses and the offer cleared, both interval timers released.
Chat state, vehicle type and payment method are not touched. -/
def resetAppState (s : AppState) : AppState :=
  { s with userMode := UserMode.none
           pickupLocation := s.currentLocation
           destination := ""
           driverStatus := DriverStatus.offline
           passengerRideStatus := none
           currentRideOffer := none
           apiResponse := ""
           error := ""
           loading := false
           driverTimerActive := false
           trackingTimerActive := false }

/-! The passenger tracking countdown (src/index.tsx lines 240-262) holds its
`eta` counter in a variable captured by the interval closure.  It is
modelled separately as `TrackState`, with the counter as an `Int` so that
"never goes below zero" is a statement about the code rather than about the
carrier type. -/

/-- The state owned by the tracking interval closure: the captured `eta`
counter, the published passenger status, whether the interval is still
installed, and the republished status string. -/
structure TrackState where
  eta : Int
  status : Option RideStatus
  timerActive : Bool
  apiResponse : String
deriving DecidableEq, Repr

/-- The countdown's starting value, src/index.tsx line 242:
`currentRideOffer?.etaMinutes || 5` — JavaScript `||` falls back to `5` when
the offer is absent or its `etaMinutes` is the falsy `0`. -/
def trackInit (offer : Option RideOffer) : Int :=
  match offer with
  | none => 5
  | some o => if o.etaMinutes = 0 then 5 else (o.etaMinutes : Int)

/-- The state at the moment the tracking interval is installed for a ride
whose countdown starts at `n` (src/index.tsx lines 241-243). -/
def trackStart (n : Nat) : TrackState :=
  { eta := (n : Int), status := some RideStatus.tracking, timerActive := true, apiResponse := "" }

/-- One interval tick, src/index.tsx lines 243-252: while the counter is
positive it is decremented and the status string republished; on a tick with
the counter at zero the interval clears itself and the status transitions to
`completed`.  A cleared interval (`timerActive = false`) fires no more. -/
def trackTick (t : TrackState) : TrackState :=
  if t.timerActive = false then t
  else if t.eta > 0 then
    { t with eta := t.eta - 1
             apiResponse := "ড্রাইভার " ++ toString (t.eta - 1) ++ " মিনিট দূরে আছে। তারা আপনাকে নিতে আসছে।" }
  else
    { t with timerActive := false
             apiResponse := "ড্রাইভার এসে গেছে! আপনার রাইড নিশ্চিত করুন।"
             status := some RideStatus.completed }

/-! The orchestrator as a whole: a user intent, timer tick or AI response is
an `Event`; `step` applies the corresponding handler when the presentation
layer exposes that intent in the current state (conditional rendering and
`disabled` attributes of src/index.tsx lines 509-784), then re-runs the two
timer-owning effects. -/

/-- One external stimulus: a user intent (with any AI response it awaits) or
a timer tick (with the AI response the tick awaits, for driver polling). -/
inductive Event
  | selectMode (m : UserMode)
  | editPickup (t : String)
  | editDest (t : String)
  | editVehicle (v : VehicleType)
  | editPayment (p : PaymentMethod)
  | findRide (r : FindRideOutcome)
  | passengerAccept
  | passengerCancel
  | passengerComplete
  | driverToggle
  | driverAccept
  | driverDecline
  | driverComplete
  | driverGoOnline
  | pollTick (r : PollOutcome)
  | trackTickEv
  | resetEv
  | chatSetInput (t : String)
  | chatSend (r : ChatSend)
  | chatToggle
deriving DecidableEq, Repr

/-- The passenger booking form is rendered when the user is in passenger mode
and the ride status is neither `tracking` nor `completed`
(src/index.tsx line 553). -/
def passengerFormVisible (s : AppState) : Prop :=
  s.userMode = UserMode.passenger ∧
  s.passengerRideStatus ≠ some RideStatus.tracking ∧
  s.passengerRideStatus ≠ some RideStatus.completed

instance (s : AppState) : Decidable (passengerFormVisible s) := by
  unfold passengerFormVisible; infer_instance

/-- Dispatch of one event to its handler.  Each branch's guard is the
conjunction of the conditional rendering and `disabled` attributes under
which the source exposes that intent (line references in the branches); an
event whose guard fails leaves the state unchanged. -/
def rawStep (s : AppState) (e : Event) : AppState :=
  match e with
  | Event.selectMode m =>
      -- role buttons: rendered at mode none (line 519), disabled when loading or offline
      if s.userMode = UserMode.none ∧ m ≠ UserMode.none ∧
         s.loading = false ∧ s.isOnline = true
      then { s with userMode := m } else s
  | Event.editPickup t =>
      -- pickup input (lines 559-567), disabled when loading or offline
      if passengerFormVisible s ∧ s.loading = false ∧ s.isOnline = true
      then { s with pickupLocation := t } else s
  | Event.editDest t =>
      if passengerFormVisible s ∧ s.loading = false ∧ s.isOnline = true
      then { s with destination := t } else s
  | Event.editVehicle v =>
      if passengerFormVisible s ∧ s.loading = false ∧ s.isOnline = true
      then { s with vehicleType := v } else s
  | Event.editPayment p =>
      if passengerFormVisible s ∧ s.loading = false ∧ s.isOnline = true
      then { s with paymentMethod := p } else s
  | Event.findRide r =>
      -- find-ride button (line 606), disabled when loading, offline or a field is empty
      if passengerFormVisible s ∧ s.loading = false ∧ s.isOnline = true ∧
         s.pickupLocation ≠ "" ∧ s.destination ≠ ""
      then handleFindRide s r else s
  | Event.passengerAccept =>
      -- offer card buttons: rendered at status found with an offer (line 616)
      if s.userMode = UserMode.passenger ∧ s.passengerRideStatus = some RideStatus.found ∧
         s.currentRideOffer.isSome = true ∧ s.loading = false ∧ s.isOnline = true
      then handlePassengerAcceptRide s else s
  | Event.passengerCancel =>
      if s.userMode = UserMode.passenger ∧ s.passengerRideStatus = some RideStatus.found ∧
         s.currentRideOffer.isSome = true ∧ s.loading = false ∧ s.isOnline = true
      then handlePassengerCancelRide s else s
  | Event.passengerComplete =>
      -- complete button: rendered at status tracking with an offer (line 634)
      if s.userMode = UserMode.passenger ∧ s.passengerRideStatus = some RideStatus.tracking ∧
         s.currentRideOffer.isSome = true ∧ s.isOnline = true
      then handlePassengerCompleteRide s else s
  | Event.driverToggle =>
      -- driver online switch (lines 674-684), disabled when loading or offline
      if s.userMode = UserMode.driver ∧ s.loading = false ∧ s.isOnline = true
      then handleDriverToggleOnline s else s
  | Event.driverAccept =>
      -- request card buttons: rendered at request_pending with an offer (line 696)
      if s.userMode = UserMode.driver ∧ s.driverStatus = DriverStatus.request_pending ∧
         s.currentRideOffer.isSome = true ∧ s.loading = false ∧ s.isOnline = true
      then handleDriverAcceptRide s else s
  | Event.driverDecline =>
      if s.userMode = UserMode.driver ∧ s.driverStatus = DriverStatus.request_pending ∧
         s.currentRideOffer.isSome = true ∧ s.loading = false ∧ s.isOnline = true
      then handleDriverDeclineRide s else s
  | Event.driverComplete =>
      -- complete button: rendered at on_ride with an offer (line 714)
      if s.userMode = UserMode.driver ∧ s.driverStatus = DriverStatus.on_ride ∧
         s.currentRideOffer.isSome = true ∧ s.isOnline = true
      then handleDriverCompleteRide s else s
  | Event.driverGoOnline =>
      -- go-online-again button: rendered at ride_completed (line 735)
      if s.userMode = UserMode.driver ∧ s.driverStatus = DriverStatus.ride_completed ∧
         s.isOnline = true
      then { s with driverStatus := DriverStatus.online } else s
  | Event.pollTick r =>
      -- the driver polling interval fires only while installed (lines 225-230)
      if s.driverTimerActive = true then simulateDriverActivity s r else s
  | Event.trackTickEv =>
      -- the tracking interval fires only while installed (lines 243-252)
      if s.trackingTimerActive = true then
        if s.trackingEta > 0 then
          { s with trackingEta := s.trackingEta - 1
                   apiResponse := "ড্রাইভার " ++ toString (s.trackingEta - 1) ++ " মিনিট দূরে আছে। তারা আপনাকে নিতে আসছে।" }
        else
          { s with trackingTimerActive := false
                   apiResponse := "ড্রাইভার এসে গেছে! আপনার রাইড নিশ্চিত করুন।"
                   passengerRideStatus := some RideStatus.completed }
      else s
  | Event.resetEv =>
      -- back/home buttons rendered throughout both dashboards (lines 609, 662, 685)
      if s.userMode ≠ UserMode.none then resetAppState s else s
  | Event.chatSetInput t =>
      -- chat input (lines 773-780), disabled when offline
      if s.isOnline = true then { s with chatInput := t } else s
  | Event.chatSend r => handleSendChatMessage s r
  | Event.chatToggle => handleToggleChat s

/-- The two timer-owning `useEffect` blocks, re-run after each event: the
driver polling interval exists exactly while `driverStatus` is `online`
(src/index.tsx lines 225-230), and the tracking interval is installed when
`passengerRideStatus` becomes `tracking` — capturing its starting counter
from the current offer (line 242) — and torn down when the status leaves
`tracking` (lines 253-256). -/
def syncTimers (s : AppState) : AppState :=
  let s1 := { s with driverTimerActive := s.driverStatus == DriverStatus.online }
  if s1.passengerRideStatus = some RideStatus.tracking then
    if s1.trackingTimerActive = true then s1
    else { s1 with trackingTimerActive := true, trackingEta := trackInit s1.currentRideOffer }
  else { s1 with trackingTimerActive := false }

/-- One full reaction of the component to an event: the handler, then the
timer-owning effects. -/
def step (s : AppState) (e : Event) : AppState :=
  syncTimers (rawStep s e)

/-- The state after the listed events, starting from the freshly mounted
component with connectivity `online`. -/
def reach (online : Bool) (evs : List Event) : AppState :=
  evs.foldl step (initState online)

/-- Consistency of the single offer slot with the mode and statuses, as it
actually holds in the code: while no role or the driver role is active,
`request_pending` is the only pending-offer driver status and `offline` /
`online` / `ride_completed` carry no offer; in passenger mode the
`driverStatus` field simply stays `offline` (the passenger flow stores its
offer under `passengerRideStatus` instead). -/
def OfferConsistent (s : AppState) : Prop :=
  (s.userMode = UserMode.none →
    s.driverStatus = DriverStatus.offline ∧ s.currentRideOffer = none) ∧
  (s.userMode = UserMode.passenger → s.driverStatus = DriverStatus.offline) ∧
  (s.userMode = UserMode.driver →
    (s.driverStatus = DriverStatus.request_pending → s.currentRideOffer.isSome = true) ∧
    ((s.driverStatus = DriverStatus.offline ∨ s.driverStatus = DriverStatus.online) →
      s.currentRideOffer = none) ∧
    (s.driverStatus = DriverStatus.ride_completed → s.currentRideOffer = none))

/-! Concrete fixtures used by witnesses and counterexamples. -/

/-- A well-formed passenger ride payload (no `message` field). -/
def exRide : RideData :=
  { driverName := "Karim", driverRating := 5, vehicleType := "Car",
    licensePlate := "DHK-1122", etaMinutes := 4, estimatedFare := 250, message := none }

/-- A well-formed driver incoming-request payload. -/
def exReq : RequestData :=
  { passengerName := "Ahmed", passengerRating := 4, pickup := "Mirpur 10",
    destination := "Farmgate", fare := 300 }

/-- A passenger who has filled in both locations and is online. -/
def exFindState : AppState :=
  { initState true with userMode := UserMode.passenger,
                        pickupLocation := "Dhanmondi 32",
                        destination := "Uttara Sector 11" }

/-- A passenger looking at a found offer. -/
def exFoundState : AppState :=
  { initState true with userMode := UserMode.passenger,
                        passengerRideStatus := some RideStatus.found,
                        currentRideOffer := some (offerOfRide exRide "Dhanmondi 32" "Uttara Sector 11") }

/-- A driver looking at a pending incoming request. -/
def exPendingState : AppState :=
  { initState true with userMode := UserMode.driver,
                        driverStatus := DriverStatus.request_pending,
                        currentRideOffer := some (offerOfRequest exReq) }

/-- Events taking a fresh online session to a found passenger offer. -/
def exOfferTrace : List Event :=
  [Event.selectMode UserMode.passenger, Event.editPickup "Dhaka University",
   Event.editDest "Gulshan 1", Event.findRide (FindRideOutcome.parsed exRide)]

/-- Events taking a fresh online session to a driver pending request. -/
def exPendingTrace : List Event :=
  [Event.selectMode UserMode.driver, Event.driverToggle,
   Event.pollTick (PollOutcome.parsed exReq)]

/-- Events taking a fresh online session into driver mode (still offline). -/
def exDriverTrace : List Event :=
  [Event.selectMode UserMode.driver]

/-- An online driver waiting for requests, polling interval installed. -/
def exOnlineDriver : AppState :=
  { initState true with userMode := UserMode.driver,
                        driverStatus := DriverStatus.online,
                        driverTimerActive := true }

/-- An offline user with a typed chat message. -/
def exChatOffline : AppState := { initState false with chatInput := "hello" }

/-- An online user with a whitespace-only chat message. -/
def exChatBlank : AppState := { initState true with chatInput := "   " }

/-- An online user with a typed chat message and a live session. -/
def exChatReady : AppState :=
  { initState true with chatInput := "hi", chatSession := some 1 }


/-! Helper lemmas. -/

/-- A string with a non-empty left part is non-empty. -/
theorem str_append_ne_empty (a b : String) (h : a ≠ "") : a ++ b ≠ "" := by
  intro hc
  apply h
  have hd := congrArg String.data hc
  rw [String.data_append] at hd
  exact String.ext (List.append_eq_nil.mp hd).1

/-- The find-ride failure error string is never empty. -/
theorem msgFindFail_ne_empty (m : String) : msgFindFail m ≠ "" := by
  unfold msgFindFail
  apply str_append_ne_empty
  decide

/-- C1.  For every non-empty pickup and destination, invoking find-ride while
online first enters the `searching` status, and on a parsed response without
a `message` field ends in `found` with an offer whose pickup and destination
equal the submitted inputs. -/
theorem findRide_success_commits_offer (s : AppState) (d : RideData)
    (hp : s.pickupLocation ≠ "") (hd : s.destination ≠ "") (ho : s.isOnline = true)
    (hm : d.message = none) :
    (findRideSearching s).passengerRideStatus = some RideStatus.searching ∧
    (handleFindRide s (FindRideOutcome.parsed d)).passengerRideStatus = some RideStatus.found ∧
    ∃ o : RideOffer,
      (handleFindRide s (FindRideOutcome.parsed d)).currentRideOffer = some o ∧
      o.pickup = s.pickupLocation ∧ o.destination = s.destination := by
  have hmt : messageTruthy d = false := by rw [messageTruthy, hm]
  refine ⟨rfl, ?_, ?_⟩
  · simp [handleFindRide, hp, hd, ho, finishFindRide, hmt, findRideSearching]
  · refine ⟨offerOfRide d s.pickupLocation s.destination, ?_, rfl, rfl⟩
    simp [handleFindRide, hp, hd, ho, finishFindRide, hmt, findRideSearching]

/-- Witness for C1 at a concrete passenger state and payload. -/
theorem findRide_success_commits_offer_witness :
    (findRideSearching exFindState).passengerRideStatus = some RideStatus.searching ∧
    (handleFindRide exFindState (FindRideOutcome.parsed exRide)).passengerRideStatus =
      some RideStatus.found ∧
    ∃ o : RideOffer,
      (handleFindRide exFindState (FindRideOutcome.parsed exRide)).currentRideOffer = some o ∧
      o.pickup = exFindState.pickupLocation ∧ o.destination = exFindState.destination :=
  findRide_success_commits_offer exFindState exRide (by decide) (by decide) rfl rfl

/-- C2.  During a passenger search (guards passed), an unparseable response
ends with no active ride, a non-empty user-facing message and no offer, and a
request-layer error likewise ends with no active ride, a non-empty error and
no offer: the offer is only ever committed on a successful parse. -/
theorem findRide_failure_resets (s : AppState) (m : String)
    (hp : s.pickupLocation ≠ "") (hd : s.destination ≠ "") (ho : s.isOnline = true) :
    ((handleFindRide s FindRideOutcome.badJson).passengerRideStatus = none ∧
     (handleFindRide s FindRideOutcome.badJson).apiResponse ≠ "" ∧
     (handleFindRide s FindRideOutcome.badJson).currentRideOffer = none) ∧
    ((handleFindRide s (FindRideOutcome.apiError m)).passengerRideStatus = none ∧
     (handleFindRide s (FindRideOutcome.apiError m)).error ≠ "" ∧
     (handleFindRide s (FindRideOutcome.apiError m)).currentRideOffer = none) := by
  refine ⟨⟨?_, ?_, ?_⟩, ⟨?_, ?_, ?_⟩⟩ <;>
    simp [handleFindRide, hp, hd, ho, finishFindRide, findRideSearching,
          msgFindFail_ne_empty, msgFindParseFail]

/-- Witness for C2 at a concrete passenger state. -/
theorem findRide_failure_resets_witness :
    ((handleFindRide exFindState FindRideOutcome.badJson).passengerRideStatus = none ∧
     (handleFindRide exFindState FindRideOutcome.badJson).apiResponse ≠ "" ∧
     (handleFindRide exFindState FindRideOutcome.badJson).currentRideOffer = none) ∧
    ((handleFindRide exFindState (FindRideOutcome.apiError "boom")).passengerRideStatus = none ∧
     (handleFindRide exFindState (FindRideOutcome.apiError "boom")).error ≠ "" ∧
     (handleFindRide exFindState (FindRideOutcome.apiError "boom")).currentRideOffer = none) :=
  findRide_failure_resets exFindState "boom" (by decide) (by decide) rfl

/-- C10.  Reset returns the mode to `none`, clears the offer, both statuses,
both timers, the destination and the message/error strings, sets the pickup
field to the current-location string, and leaves the chat session handle,
the chat turns, the vehicle type and the payment method unchanged. -/
theorem reset_clears_and_preserves (s : AppState) :
    (resetAppState s).userMode = UserMode.none ∧
    (resetAppState s).currentRideOffer = none ∧
    (resetAppState s).passengerRideStatus = none ∧
    (resetAppState s).driverStatus = DriverStatus.offline ∧
    (resetAppState s).driverTimerActive = false ∧
    (resetAppState s).trackingTimerActive = false ∧
    (resetAppState s).destination = "" ∧
    (resetAppState s).apiResponse = "" ∧
    (resetAppState s).error = "" ∧
    (resetAppState s).loading = false ∧
    (resetAppState s).pickupLocation = s.currentLocation ∧
    (resetAppState s).chatSession = s.chatSession ∧
    (resetAppState s).chatMessages = s.chatMessages ∧
    (resetAppState s).vehicleType = s.vehicleType ∧
    (resetAppState s).paymentMethod = s.paymentMethod :=
  ⟨rfl, rfl, rfl, rfl, rfl, rfl, rfl, rfl, rfl, rfl, rfl, rfl, rfl, rfl, rfl⟩

/-- C7 as stated is false at a concrete found-offer state: the cancel intent
sets the passenger ride status to `canceled` (src/index.tsx line 345), not to
the null "no active ride" value the claim asserts; the offer is cleared. -/
theorem passengerCancel_claim_false :
    exFoundState.passengerRideStatus = some RideStatus.found ∧
    exFoundState.currentRideOffer.isSome = true ∧
    (handlePassengerCancelRide exFoundState).passengerRideStatus ≠ none ∧
    (handlePassengerCancelRide exFoundState).passengerRideStatus = some RideStatus.canceled := by
  refine ⟨rfl, rfl, ?_, rfl⟩
  decide

/-- C7 (amended).  From any state (in particular from status `found`), the
cancel intent transitions the passenger ride status to `canceled` and clears
the current ride offer. -/
theorem passengerCancel_sets_canceled (s : AppState) :
    (handlePassengerCancelRide s).passengerRideStatus = some RideStatus.canceled ∧
    (handlePassengerCancelRide s).currentRideOffer = none :=
  ⟨rfl, rfl⟩

/-- C4 as stated is false at a concrete pending request: the accept intent
does not clear the current ride offer (src/index.tsx lines 370-377 never
call `setCurrentRideOffer(null)`; the on-ride card at lines 714-725 still
renders the offer, which is cleared only on ride completion). -/
theorem driverAccept_claim_false :
    exPendingState.driverStatus = DriverStatus.request_pending ∧
    exPendingState.currentRideOffer.isSome = true ∧
    (handleDriverAcceptRide exPendingState).driverStatus = DriverStatus.on_ride ∧
    (handleDriverAcceptRide exPendingState).currentRideOffer ≠ none := by
  refine ⟨rfl, rfl, by decide, by decide⟩

/-- C4 (amended).  From `request_pending` with an offer present: accept
transitions to `on_ride` and copies the offer's pickup and destination into
the active-trip fields, retaining the offer (it is cleared on completion);
decline transitions to `online` and clears the offer. -/
theorem driver_accept_decline (s : AppState) (o : RideOffer)
    (_hst : s.driverStatus = DriverStatus.request_pending)
    (hoff : s.currentRideOffer = some o) :
    (handleDriverAcceptRide s).driverStatus = DriverStatus.on_ride ∧
    (handleDriverAcceptRide s).pickupLocation = o.pickup ∧
    (handleDriverAcceptRide s).destination = o.destination ∧
    (handleDriverAcceptRide s).currentRideOffer = some o ∧
    (handleDriverDeclineRide s).driverStatus = DriverStatus.online ∧
    (handleDriverDeclineRide s).currentRideOffer = none := by
  refine ⟨?_, ?_, ?_, ?_, rfl, rfl⟩ <;> simp [handleDriverAcceptRide, hoff]

/-- Witness for C4 (amended) at a concrete pending request. -/
theorem driver_accept_decline_witness :
    (handleDriverAcceptRide exPendingState).driverStatus = DriverStatus.on_ride ∧
    (handleDriverAcceptRide exPendingState).pickupLocation = (offerOfRequest exReq).pickup ∧
    (handleDriverAcceptRide exPendingState).destination = (offerOfRequest exReq).destination ∧
    (handleDriverAcceptRide exPendingState).currentRideOffer = some (offerOfRequest exReq) ∧
    (handleDriverDeclineRide exPendingState).driverStatus = DriverStatus.online ∧
    (handleDriverDeclineRide exPendingState).currentRideOffer = none :=
  driver_accept_decline exPendingState (offerOfRequest exReq) rfl rfl

/-- While the countdown is still running, tick `k` (for `k ≤ N`) has brought
the counter from `N` down to `N - k`, the status is still `tracking` and the
interval is still installed. -/
theorem trackTick_iterate (N : Nat) :
    ∀ k : Nat, k ≤ N →
      (trackTick^[k] (trackStart N)).eta = (N : Int) - (k : Int) ∧
      (trackTick^[k] (trackStart N)).status = some RideStatus.tracking ∧
      (trackTick^[k] (trackStart N)).timerActive = true := by
  intro k
  induction k with
  | zero => intro _; exact ⟨by simp [trackStart], rfl, rfl⟩
  | succ k ih =>
      intro hk
      obtain ⟨he, hs, ht⟩ := ih (Nat.le_of_succ_le hk)
      rw [Function.iterate_succ_apply']
      have hkN : k < N := Nat.lt_of_succ_le hk
      have hpos : (trackTick^[k] (trackStart N)).eta > 0 := by
        rw [he]
        have : (k : Int) < (N : Int) := by exact_mod_cast hkN
        omega
      refine ⟨?_, ?_, ?_⟩ <;> simp [trackTick, ht, hpos, he, hs, hkN]
      ring

/-- The tick never drives the counter negative. -/
theorem trackTick_nonneg (t : TrackState) (h : 0 ≤ t.eta) : 0 ≤ (trackTick t).eta := by
  unfold trackTick
  split_ifs with h1 h2
  · exact h
  · simp
    omega
  · exact h

/-- C5 (amended).  Starting the `tracking` countdown at `N`: every tick taken
with a positive counter decrements it by exactly one and stays in `tracking`;
the first tick taken with the counter already at zero — one tick after the
counter reaches zero — stops the interval and transitions to `completed`;
and the counter never goes below zero. -/
theorem tracking_countdown (N k : Nat) :
    (k ≤ N →
      (trackTick^[k] (trackStart N)).eta = (N : Int) - (k : Int) ∧
      (trackTick^[k] (trackStart N)).status = some RideStatus.tracking ∧
      (trackTick^[k] (trackStart N)).timerActive = true) ∧
    (trackTick^[N + 1] (trackStart N)).status = some RideStatus.completed ∧
    (trackTick^[N + 1] (trackStart N)).timerActive = false ∧
    (trackTick^[N + 1] (trackStart N)).eta = 0 ∧
    0 ≤ (trackTick^[k] (trackStart N)).eta := by
  have hfin : (trackTick^[N + 1] (trackStart N)).status = some RideStatus.completed ∧
      (trackTick^[N + 1] (trackStart N)).timerActive = false ∧
      (trackTick^[N + 1] (trackStart N)).eta = 0 := by
    obtain ⟨he, hs, ht⟩ := trackTick_iterate N N le_rfl
    rw [Function.iterate_succ_apply']
    have hz : (trackTick^[N] (trackStart N)).eta = 0 := by rw [he]; ring
    refine ⟨?_, ?_, ?_⟩ <;> simp [trackTick, ht, hz]
  have hnn : ∀ j : Nat, 0 ≤ (trackTick^[j] (trackStart N)).eta := by
    intro j
    induction j with
    | zero => simp [trackStart]
    | succ j ih =>
        rw [Function.iterate_succ_apply']
        exact trackTick_nonneg _ ih
  exact ⟨trackTick_iterate N k, hfin.1, hfin.2.1, hfin.2.2, hnn k⟩

/-- Witness for C5 (amended) at `N = 3`, `k = 2`. -/
theorem tracking_countdown_witness :
    ((trackTick^[2] (trackStart 3)).eta = (3 : Int) - (2 : Int) ∧
     (trackTick^[2] (trackStart 3)).status = some RideStatus.tracking ∧
     (trackTick^[2] (trackStart 3)).timerActive = true) ∧
    (trackTick^[3 + 1] (trackStart 3)).status = some RideStatus.completed ∧
    (trackTick^[3 + 1] (trackStart 3)).timerActive = false ∧
    (trackTick^[3 + 1] (trackStart 3)).eta = 0 ∧
    0 ≤ (trackTick^[2] (trackStart 3)).eta := by
  obtain ⟨h1, h2⟩ := tracking_countdown 3 2
  exact ⟨h1 (by decide), h2⟩

/-- C5 as stated is false at starting counter `1`: the tick that brings the
counter to zero leaves the status at `tracking` with the interval still
installed (the transition fires only on the next tick, src/index.tsx lines
244-251), and that next tick does not decrement the counter. -/
theorem tracking_claim_false :
    (trackTick (trackStart 1)).eta = 0 ∧
    (trackTick (trackStart 1)).status = some RideStatus.tracking ∧
    (trackTick (trackStart 1)).timerActive = true ∧
    (trackTick (trackTick (trackStart 1))).eta = 0 ∧
    (trackTick (trackTick (trackStart 1))).status = some RideStatus.completed := by
  decide

/-- C8.  A chat message is rejected when the input is empty or
whitespace-only (the state is untouched), and when connectivity is
unavailable: in the offline case no user turn is appended, the session
handle and the input are not mutated, and a non-empty error is set. -/
theorem send_chat_guards (s : AppState) (r : ChatSend) :
    (jsTrim s.chatInput = "" → handleSendChatMessage s r = s) ∧
    (jsTrim s.chatInput ≠ "" → s.isOnline = false →
      (handleSendChatMessage s r).chatMessages = s.chatMessages ∧
      (handleSendChatMessage s r).chatSession = s.chatSession ∧
      (handleSendChatMessage s r).chatInput = s.chatInput ∧
      (handleSendChatMessage s r).error ≠ "") := by
  constructor
  · intro h
    simp [handleSendChatMessage, h]
  · intro h hoff
    refine ⟨?_, ?_, ?_, ?_⟩ <;> simp [handleSendChatMessage, h, hoff]

/-- Witness for C8: a whitespace-only input is a no-op, and an offline send
leaves the turns, the session and the input untouched while setting an
error. -/
theorem send_chat_guards_witness :
    handleSendChatMessage exChatBlank (ChatSend.ok ["x"]) = exChatBlank ∧
    ((handleSendChatMessage exChatOffline (ChatSend.ok ["x"])).chatMessages =
        exChatOffline.chatMessages ∧
     (handleSendChatMessage exChatOffline (ChatSend.ok ["x"])).chatSession =
        exChatOffline.chatSession ∧
     (handleSendChatMessage exChatOffline (ChatSend.ok ["x"])).chatInput =
        exChatOffline.chatInput ∧
     (handleSendChatMessage exChatOffline (ChatSend.ok ["x"])).error ≠ "") :=
  ⟨(send_chat_guards exChatBlank (ChatSend.ok ["x"])).1 (by decide),
   (send_chat_guards exChatOffline (ChatSend.ok ["x"])).2 (by decide) rfl⟩

/-- Updating with a fresh accumulator a turn list ending in an assistant text
turn replaces that last turn. -/
theorem applyChunkUpdate_last_str (msgs : List ChatMessage) (acc c : String) :
    applyChunkUpdate (msgs ++ [⟨Sender.ai, ChatText.str acc⟩]) c =
      msgs ++ [⟨Sender.ai, ChatText.str c⟩] := by
  unfold applyChunkUpdate setLast
  rw [List.getLast?_concat]
  simp [List.dropLast_concat]

/-- Updating a turn list ending in the pending placeholder replaces the
placeholder. -/
theorem applyChunkUpdate_last_pending (msgs : List ChatMessage) (c : String) :
    applyChunkUpdate (msgs ++ [⟨Sender.ai, ChatText.pending⟩]) c =
      msgs ++ [⟨Sender.ai, ChatText.str c⟩] := by
  unfold applyChunkUpdate setLast
  rw [List.getLast?_concat]
  simp [List.dropLast_concat]

/-- Folding the remaining non-empty fragments over a turn list ending in the
assistant turn holding the accumulator keeps exactly that one turn, extending
its content with the concatenated fragments. -/
theorem streamMerge_on_str (fs : List String) :
    ∀ (msgs : List ChatMessage) (acc : String), (∀ f ∈ fs, f ≠ "") →
      streamMerge fs (msgs ++ [⟨Sender.ai, ChatText.str acc⟩]) acc =
        msgs ++ [⟨Sender.ai, ChatText.str (fs.foldl (fun a b => a ++ b) acc)⟩] := by
  induction fs with
  | nil => intro msgs acc _; simp [streamMerge]
  | cons f rest ih =>
      intro msgs acc hne
      have hf : f ≠ "" := hne f (by simp)
      unfold streamMerge
      rw [if_neg hf, applyChunkUpdate_last_str,
          ih msgs (acc ++ f) (fun g hg => hne g (by simp [hg]))]
      rfl

/-- A non-trivial fragment sequence consumed from the pending placeholder
resolves it into the single assistant turn carrying the full concatenation. -/
theorem streamMerge_from_pending (fs : List String) (msgs : List ChatMessage)
    (hfs : fs ≠ []) (hne : ∀ f ∈ fs, f ≠ "") :
    streamMerge fs (msgs ++ [⟨Sender.ai, ChatText.pending⟩]) "" =
      msgs ++ [⟨Sender.ai, ChatText.str (String.join fs)⟩] := by
  cases fs with
  | nil => exact absurd rfl hfs
  | cons f rest =>
      have hf : f ≠ "" := hne f (by simp)
      unfold streamMerge
      rw [if_neg hf, String.empty_append, applyChunkUpdate_last_pending,
          streamMerge_on_str rest msgs f (fun g hg => hne g (by simp [hg]))]
      have : String.join (f :: rest) = rest.foldl (fun a b => a ++ b) f := by
        simp [String.join, String.empty_append]
      rw [this]

/-- C9.  For every finite sequence of non-empty streamed fragments, sending a
chat message while online with a live session appends the user turn and
exactly one new assistant turn whose content is the concatenation of all
fragments, the pending placeholder having been replaced in place. -/
theorem chat_stream_single_turn (s : AppState) (fs : List String) (h : Nat)
    (hin : jsTrim s.chatInput ≠ "") (hon : s.isOnline = true)
    (hsess : s.chatSession = some h)
    (hfs : fs ≠ []) (hne : ∀ f ∈ fs, f ≠ "") :
    (handleSendChatMessage s (ChatSend.ok fs)).chatMessages =
      s.chatMessages ++ [⟨Sender.user, ChatText.str s.chatInput⟩,
                         ⟨Sender.ai, ChatText.str (String.join fs)⟩] := by
  simp [handleSendChatMessage, chatAppendUser, chatEnsureSession, chatDispatch, hin, hon, hsess]
  have hl : s.chatMessages ++ [(⟨Sender.user, ChatText.str s.chatInput⟩ : ChatMessage),
      ⟨Sender.ai, ChatText.pending⟩] =
      (s.chatMessages ++ [⟨Sender.user, ChatText.str s.chatInput⟩]) ++
        [⟨Sender.ai, ChatText.pending⟩] := by simp
  rw [hl, streamMerge_from_pending fs _ hfs hne]
  simp

/-- Witness for C9 with the fragment sequence of the specification's example. -/
theorem chat_stream_single_turn_witness :
    (handleSendChatMessage exChatReady (ChatSend.ok ["Hel", "lo", "!"])).chatMessages =
      exChatReady.chatMessages ++ [⟨Sender.user, ChatText.str exChatReady.chatInput⟩,
        ⟨Sender.ai, ChatText.str (String.join ["Hel", "lo", "!"])⟩] :=
  chat_stream_single_turn exChatReady ["Hel", "lo", "!"] 1 (by decide) rfl rfl
    (by decide) (by decide)

/-- Re-running the timer effects never changes the mode. -/
theorem syncTimers_userMode (s : AppState) : (syncTimers s).userMode = s.userMode := by
  simp only [syncTimers]
  split_ifs <;> rfl

/-- Re-running the timer effects never changes the driver status. -/
theorem syncTimers_driverStatus (s : AppState) :
    (syncTimers s).driverStatus = s.driverStatus := by
  simp only [syncTimers]
  split_ifs <;> rfl

/-- Re-running the timer effects never changes the offer slot. -/
theorem syncTimers_currentRideOffer (s : AppState) :
    (syncTimers s).currentRideOffer = s.currentRideOffer := by
  simp only [syncTimers]
  split_ifs <;> rfl

/-- Re-running the timer effects never issues a fetch. -/
theorem syncTimers_fetchCount (s : AppState) :
    (syncTimers s).fetchCount = s.fetchCount := by
  simp only [syncTimers]
  split_ifs <;> rfl

/-- After the timer effects, the driver polling interval is installed exactly
while the driver status is `online`. -/
theorem syncTimers_driverTimerActive (s : AppState) :
    (syncTimers s).driverTimerActive = (s.driverStatus == DriverStatus.online) := by
  simp only [syncTimers]
  split_ifs <;> rfl

/-- C6.  Toggling the driver offline (from any non-offline driver state where
the toggle is accepted) clears the pending offer and uninstalls the polling
interval, and any later polling tick taken while the driver status is still
`offline` issues no incoming-request fetch and changes neither the status nor
the offer. -/
theorem driver_toggle_halts_polling (s : AppState)
    (hm : s.userMode = UserMode.driver) (hon : s.isOnline = true)
    (hst : s.driverStatus ≠ DriverStatus.offline) (hld : s.loading = false) :
    (step s Event.driverToggle).driverStatus = DriverStatus.offline ∧
    (step s Event.driverToggle).currentRideOffer = none ∧
    (step s Event.driverToggle).driverTimerActive = false ∧
    (∀ (t : AppState) (r : PollOutcome), t.driverStatus = DriverStatus.offline →
      (step t (Event.pollTick r)).fetchCount = t.fetchCount ∧
      (step t (Event.pollTick r)).driverStatus = DriverStatus.offline ∧
      (step t (Event.pollTick r)).currentRideOffer = t.currentRideOffer) := by
  have hraw : rawStep s Event.driverToggle = handleDriverToggleOnline s := by
    simp [rawStep, hm, hon, hld]
  have htog : (handleDriverToggleOnline s).driverStatus = DriverStatus.offline ∧
      (handleDriverToggleOnline s).currentRideOffer = none := by
    constructor <;> simp [handleDriverToggleOnline, hon, hst]
  refine ⟨?_, ?_, ?_, ?_⟩
  · rw [step, hraw, syncTimers_driverStatus]; exact htog.1
  · rw [step, hraw, syncTimers_currentRideOffer]; exact htog.2
  · rw [step, hraw, syncTimers_driverTimerActive, htog.1]; rfl
  · intro t r ht
    have hraw2 : rawStep t (Event.pollTick r) = t := by
      simp [rawStep, simulateDriverActivity, ht]
    refine ⟨?_, ?_, ?_⟩
    · rw [step, hraw2, syncTimers_fetchCount]
    · rw [step, hraw2, syncTimers_driverStatus, ht]
    · rw [step, hraw2, syncTimers_currentRideOffer]

/-- Witness for C6: a concrete online driver taken offline, and a later tick
in the offline state. -/
theorem driver_toggle_halts_polling_witness :
    ((step exOnlineDriver Event.driverToggle).driverStatus = DriverStatus.offline ∧
     (step exOnlineDriver Event.driverToggle).currentRideOffer = none ∧
     (step exOnlineDriver Event.driverToggle).driverTimerActive = false) ∧
    ((step (step exOnlineDriver Event.driverToggle)
        (Event.pollTick (PollOutcome.parsed exReq))).fetchCount =
      (step exOnlineDriver Event.driverToggle).fetchCount) := by
  obtain ⟨h1, h2, h3, h4⟩ :=
    driver_toggle_halts_polling exOnlineDriver rfl rfl (by decide) rfl
  exact ⟨⟨h1, h2, h3⟩, (h4 _ (PollOutcome.parsed exReq) h1).1⟩

/-- Offer consistency depends only on the mode, the driver status and the
offer slot. -/
theorem OfferConsistent_congr {t s : AppState} (h1 : t.userMode = s.userMode)
    (h2 : t.driverStatus = s.driverStatus)
    (h3 : t.currentRideOffer = s.currentRideOffer)
    (h : OfferConsistent s) : OfferConsistent t := by
  unfold OfferConsistent at h ⊢
  rw [h1, h2, h3]
  exact h

/-- A state with no role, an offline driver status and no offer is
consistent. -/
theorem OfferConsistent_ofNone {s : AppState} (hm : s.userMode = UserMode.none)
    (hd : s.driverStatus = DriverStatus.offline) (ho : s.currentRideOffer = none) :
    OfferConsistent s := by
  simp [OfferConsistent, hm, hd, ho]

/-- A passenger-mode state with an offline driver status is consistent. -/
theorem OfferConsistent_ofPassenger {s : AppState}
    (hm : s.userMode = UserMode.passenger)
    (hd : s.driverStatus = DriverStatus.offline) : OfferConsistent s := by
  simp [OfferConsistent, hm, hd]

/-- A driver-mode state with a pending request holding an offer is
consistent. -/
theorem OfferConsistent_ofDriverPending {s : AppState}
    (hm : s.userMode = UserMode.driver)
    (hs : s.driverStatus = DriverStatus.request_pending)
    (ho : s.currentRideOffer.isSome = true) : OfferConsistent s := by
  simp [OfferConsistent, hm, hs, ho]

/-- A driver-mode state outside `request_pending` with an empty offer slot is
consistent. -/
theorem OfferConsistent_ofDriverNoOffer {s : AppState}
    (hm : s.userMode = UserMode.driver) (ho : s.currentRideOffer = none)
    (hs : s.driverStatus ≠ DriverStatus.request_pending) : OfferConsistent s := by
  simp [OfferConsistent, hm, ho, hs]

/-- A driver-mode state on a ride is consistent. -/
theorem OfferConsistent_ofDriverOnRide {s : AppState}
    (hm : s.userMode = UserMode.driver)
    (hs : s.driverStatus = DriverStatus.on_ride) : OfferConsistent s := by
  simp [OfferConsistent, hm, hs]

/-- Creating the chat session touches neither the mode, the driver status nor
the offer. -/
theorem initChat_frame (s : AppState) :
    (initChat s).userMode = s.userMode ∧
    (initChat s).driverStatus = s.driverStatus ∧
    (initChat s).currentRideOffer = s.currentRideOffer := by
  unfold initChat
  split_ifs <;> exact ⟨rfl, rfl, rfl⟩

/-- The chat failure path touches neither the mode, the driver status nor the
offer. -/
theorem chatCatch_frame (s : AppState) :
    (chatCatch s).userMode = s.userMode ∧
    (chatCatch s).driverStatus = s.driverStatus ∧
    (chatCatch s).currentRideOffer = s.currentRideOffer :=
  ⟨rfl, rfl, rfl⟩


/-- Appending the user's turn touches neither the mode, the driver status nor
the offer. -/
theorem chatAppendUser_frame (s : AppState) :
    (chatAppendUser s).userMode = s.userMode ∧
    (chatAppendUser s).driverStatus = s.driverStatus ∧
    (chatAppendUser s).currentRideOffer = s.currentRideOffer :=
  ⟨rfl, rfl, rfl⟩

/-- Lazy session creation touches neither the mode, the driver status nor
the offer. -/
theorem chatEnsureSession_frame (s : AppState) :
    (chatEnsureSession s).userMode = s.userMode ∧
    (chatEnsureSession s).driverStatus = s.driverStatus ∧
    (chatEnsureSession s).currentRideOffer = s.currentRideOffer := by
  unfold chatEnsureSession
  split
  · exact initChat_frame s
  · exact ⟨rfl, rfl, rfl⟩

/-- Consuming the stream touches neither the mode, the driver status nor the
offer. -/
theorem chatDispatch_frame (s : AppState) (r : ChatSend) :
    (chatDispatch s r).userMode = s.userMode ∧
    (chatDispatch s r).driverStatus = s.driverStatus ∧
    (chatDispatch s r).currentRideOffer = s.currentRideOffer := by
  unfold chatDispatch
  split
  · exact ⟨rfl, rfl, rfl⟩
  · cases r <;> exact ⟨rfl, rfl, rfl⟩

/-- Sending a chat message touches neither the mode, the driver status nor
the offer. -/
theorem handleSendChatMessage_frame (s : AppState) (r : ChatSend) :
    (handleSendChatMessage s r).userMode = s.userMode ∧
    (handleSendChatMessage s r).driverStatus = s.driverStatus ∧
    (handleSendChatMessage s r).currentRideOffer = s.currentRideOffer := by
  unfold handleSendChatMessage
  split
  · exact ⟨rfl, rfl, rfl⟩
  · split
    · exact ⟨rfl, rfl, rfl⟩
    · obtain ⟨d1, d2, d3⟩ := chatDispatch_frame (chatEnsureSession (chatAppendUser s)) r
      obtain ⟨e1, e2, e3⟩ := chatEnsureSession_frame (chatAppendUser s)
      exact ⟨d1.trans e1, d2.trans e2, d3.trans e3⟩

/-- Toggling the chat window touches neither the mode, the driver status nor
the offer. -/
theorem handleToggleChat_frame (s : AppState) :
    (handleToggleChat s).userMode = s.userMode ∧
    (handleToggleChat s).driverStatus = s.driverStatus ∧
    (handleToggleChat s).currentRideOffer = s.currentRideOffer := by
  unfold handleToggleChat
  split
  · exact initChat_frame _
  · exact ⟨rfl, rfl, rfl⟩

/-- The find-ride flow touches neither the mode nor the driver status. -/
theorem handleFindRide_mode_frame (s : AppState) (r : FindRideOutcome) :
    (handleFindRide s r).userMode = s.userMode ∧
    (handleFindRide s r).driverStatus = s.driverStatus := by
  refine ⟨?_, ?_⟩ <;>
    (unfold handleFindRide finishFindRide findRideSearching
     repeat' split
     all_goals rfl)

/-- The passenger accept handler touches neither the mode, the driver status
nor the offer. -/
theorem handlePassengerAcceptRide_frame (s : AppState) :
    (handlePassengerAcceptRide s).userMode = s.userMode ∧
    (handlePassengerAcceptRide s).driverStatus = s.driverStatus ∧
    (handlePassengerAcceptRide s).currentRideOffer = s.currentRideOffer := by
  unfold handlePassengerAcceptRide
  split <;> exact ⟨rfl, rfl, rfl⟩

/-- Every event handler preserves offer consistency. -/
theorem OfferConsistent_rawStep (s : AppState) (e : Event) (h : OfferConsistent s) :
    OfferConsistent (rawStep s e) := by
  have h0 := h.1
  have h1 := h.2.1
  have h2 := h.2.2
  cases e with
  | selectMode m =>
      simp only [rawStep]
      split_ifs with hg
      · obtain ⟨hg1, -, -, -⟩ := hg
        obtain ⟨hds, hoff⟩ := h0 hg1
        refine ⟨fun _ => ⟨hds, hoff⟩, fun _ => hds, fun _ => ⟨?_, fun _ => hoff, fun _ => hoff⟩⟩
        intro hp
        rw [show ({ s with userMode := m } : AppState).driverStatus = s.driverStatus from rfl,
            hds] at hp
        cases hp
      · exact h
  | editPickup t =>
      simp only [rawStep]
      split_ifs with hg
      · exact OfferConsistent_congr rfl rfl rfl h
      · exact h
  | editDest t =>
      simp only [rawStep]
      split_ifs with hg
      · exact OfferConsistent_congr rfl rfl rfl h
      · exact h
  | editVehicle v =>
      simp only [rawStep]
      split_ifs with hg
      · exact OfferConsistent_congr rfl rfl rfl h
      · exact h
  | editPayment p =>
      simp only [rawStep]
      split_ifs with hg
      · exact OfferConsistent_congr rfl rfl rfl h
      · exact h
  | findRide r =>
      simp only [rawStep]
      split_ifs with hg
      · obtain ⟨⟨hm, -, -⟩, -, -, -, -⟩ := hg
        obtain ⟨f1, f2⟩ := handleFindRide_mode_frame s r
        exact OfferConsistent_ofPassenger (f1.trans hm) (f2.trans (h1 hm))
      · exact h
  | passengerAccept =>
      simp only [rawStep]
      split_ifs with hg
      · obtain ⟨f1, f2, f3⟩ := handlePassengerAcceptRide_frame s
        exact OfferConsistent_ofPassenger (f1.trans hg.1) (f2.trans (h1 hg.1))
      · exact h
  | passengerCancel =>
      simp only [rawStep]
      split_ifs with hg
      · exact OfferConsistent_ofPassenger hg.1 (h1 hg.1)
      · exact h
  | passengerComplete =>
      simp only [rawStep]
      split_ifs with hg
      · exact OfferConsistent_ofPassenger hg.1 (h1 hg.1)
      · exact h
  | driverToggle =>
      simp only [rawStep]
      split_ifs with hg
      · obtain ⟨hm, -, -⟩ := hg
        simp only [handleDriverToggleOnline]
        split_ifs <;>
          first
            | exact OfferConsistent_congr rfl rfl rfl h
            | exact OfferConsistent_ofDriverNoOffer hm rfl (by simp)
      · exact h
  | driverAccept =>
      simp only [rawStep]
      split_ifs with hg
      · obtain ⟨hm, -, -, -, -⟩ := hg
        simp only [handleDriverAcceptRide]
        split
        · exact OfferConsistent_ofDriverOnRide hm rfl
        · exact h
      · exact h
  | driverDecline =>
      simp only [rawStep]
      split_ifs with hg
      · exact OfferConsistent_ofDriverNoOffer hg.1 rfl (by simp [handleDriverDeclineRide])
      · exact h
  | driverComplete =>
      simp only [rawStep]
      split_ifs with hg
      · exact OfferConsistent_ofDriverNoOffer hg.1 rfl (by simp [handleDriverCompleteRide])
      · exact h
  | driverGoOnline =>
      simp only [rawStep]
      split_ifs with hg
      · obtain ⟨hm, hrc, -⟩ := hg
        exact OfferConsistent_ofDriverNoOffer hm ((h2 hm).2.2 hrc) (by simp)
      · exact h
  | pollTick r =>
      simp only [rawStep]
      split_ifs with hact
      · simp only [simulateDriverActivity]
        split_ifs with hg
        · obtain ⟨hon, -, -, hoff⟩ := hg
          cases hum : s.userMode with
          | none =>
              rw [(h0 hum).1] at hon
              cases hon
          | passenger =>
              rw [h1 hum] at hon
              cases hon
          | driver =>
              cases r with
              | apiError m =>
                  refine OfferConsistent_ofDriverNoOffer ?_ ?_ ?_ <;> simp [hum, hoff, hon]
              | noText =>
                  refine OfferConsistent_ofDriverNoOffer ?_ ?_ ?_ <;> simp [hum, hoff, hon]
              | badJson =>
                  refine OfferConsistent_ofDriverNoOffer ?_ ?_ ?_ <;> simp [hum, hoff, hon]
              | parsed d =>
                  refine OfferConsistent_ofDriverPending ?_ ?_ ?_ <;> simp [hum]
        · exact h
      · exact h
  | trackTickEv =>
      simp only [rawStep]
      split_ifs with hact heta
      · exact OfferConsistent_congr rfl rfl rfl h
      · exact OfferConsistent_congr rfl rfl rfl h
      · exact h
  | resetEv =>
      simp only [rawStep]
      split_ifs with hg
      · exact OfferConsistent_ofNone rfl rfl rfl
      · exact h
  | chatSetInput t =>
      simp only [rawStep]
      split_ifs with hg
      · exact OfferConsistent_congr rfl rfl rfl h
      · exact h
  | chatSend r =>
      simp only [rawStep]
      obtain ⟨f1, f2, f3⟩ := handleSendChatMessage_frame s r
      exact OfferConsistent_congr f1 f2 f3 h
  | chatToggle =>
      simp only [rawStep]
      obtain ⟨f1, f2, f3⟩ := handleToggleChat_frame s
      exact OfferConsistent_congr f1 f2 f3 h

/-- A full reaction step (handler plus timer effects) preserves offer
consistency. -/
theorem OfferConsistent_step (s : AppState) (e : Event) (h : OfferConsistent s) :
    OfferConsistent (step s e) :=
  OfferConsistent_congr (syncTimers_userMode _) (syncTimers_driverStatus _)
    (syncTimers_currentRideOffer _) (OfferConsistent_rawStep s e h)

/-- The freshly mounted component is offer-consistent. -/
theorem OfferConsistent_initState (online : Bool) : OfferConsistent (initState online) := by
  simp [OfferConsistent, initState]

/-- Offer consistency is preserved along any event sequence. -/
theorem OfferConsistent_foldl (evs : List Event) :
    ∀ s : AppState, OfferConsistent s → OfferConsistent (evs.foldl step s) := by
  induction evs with
  | nil => intro s h; exact h
  | cons e rest ih => intro s h; exact ih (step s e) (OfferConsistent_step s e h)

/-- C3 (amended).  In every state reachable by any sequence of user intents
and AI responses, at most one ride offer exists (the single offer slot), and
while the user is in driver mode the offer is consistent with the driver
status: `request_pending` implies the offer is non-null, and `offline` or
`online` imply it is null.  The unrestricted claim fails because in passenger
mode the `driverStatus` field simply remains `offline` while the passenger
flow holds an offer (see the counterexample); in passenger mode the invariant
instead says the driver status stays `offline`. -/
theorem offer_status_consistency (online : Bool) (evs : List Event) :
    ((reach online evs).userMode = UserMode.driver →
      ((reach online evs).driverStatus = DriverStatus.request_pending →
        (reach online evs).currentRideOffer.isSome = true) ∧
      (((reach online evs).driverStatus = DriverStatus.offline ∨
        (reach online evs).driverStatus = DriverStatus.online) →
        (reach online evs).currentRideOffer = none)) ∧
    ((reach online evs).userMode = UserMode.passenger →
      (reach online evs).driverStatus = DriverStatus.offline) := by
  have h := OfferConsistent_foldl evs (initState online) (OfferConsistent_initState online)
  exact ⟨fun hm => ⟨(h.2.2 hm).1, (h.2.2 hm).2.1⟩, h.2.1⟩

/-- Witness for C3 (amended): a concrete trace reaching a driver pending
request with its offer present, and a concrete trace reaching an offline
driver with an empty offer slot. -/
theorem offer_status_consistency_witness :
    (reach true exPendingTrace).currentRideOffer.isSome = true ∧
    (reach true exDriverTrace).currentRideOffer = none :=
  ⟨((offer_status_consistency true exPendingTrace).1 (by decide)).1 (by decide),
   ((offer_status_consistency true exDriverTrace).1 (by decide)).2 (Or.inl (by decide))⟩

/-- C3 as stated is false: a reachable state (passenger finds a ride) has
`DriverStatus` `offline` while the current ride offer is non-null, because
the passenger flow stores its offer in the same slot without ever touching
the driver status. -/
theorem offer_status_claim_false :
    (reach true exOfferTrace).driverStatus = DriverStatus.offline ∧
    (reach true exOfferTrace).currentRideOffer.isSome = true := by
  decide
